import Mathlib

/-!
Verification of the core components of the vsc-utils repository against its
natural-language specification.  The Python sources are shallowly embedded:

* `NagiosRange.parse` / `NRange.alert`  — lib/vsc/utils/nagios.py, NagiosRange
* `SimpleNagios.evalModel` / `evalAndExitModel` — nagios.py, SimpleNagios._eval(_and_exit)
* `realExitModel` — nagios.py, _real_exit
* `reportAndExitModel`, `NagiosReporter.cacheRun` — nagios.py, NagiosReporter
* `FileCache.*` — lib/vsc/utils/cache.py, FileCache
* `TimestampedPidLockfile.acquireModel` — lib/vsc/utils/timestamp_pid_lockfile.py

Python floats produced by `float()` on the strings admitted by the NagiosRange
regular expression are decimal numerals; they are embedded exactly as a pair
(integer numerator, decimal exponent), compared by cross-multiplication.
Timestamps are embedded as integers.
-/

/-- Python `\s` whitespace class, used by the anchors `^\s*`/`\s*$` of the
NagiosRange regular expression (nagios.py:176). -/
def isPyWS (c : Char) : Bool :=
  c == ' ' || c == '\t' || c == '\n' || c == '\r' || c == '\x0b' || c == '\x0c'

/-- Leading and trailing whitespace admitted by `^\s*...\s*$` in the
NagiosRange regular expression. -/
def stripWS (l : List Char) : List Char :=
  ((l.dropWhile isPyWS).reverse.dropWhile isPyWS).reverse

/-- Split a character list at the first occurrence of `c`; `none` when `c`
does not occur. -/
def splitFirst (c : Char) : List Char → Option (List Char × List Char)
  | [] => none
  | x :: xs =>
    if x == c then some ([], xs)
    else (splitFirst c xs).map (fun p => (x :: p.1, p.2))

/-- Value of a list of decimal digit characters. -/
def digitsToNat (l : List Char) : Nat :=
  l.foldl (fun n c => 10 * n + (c.toNat - '0'.toNat)) 0

/-- Exact embedding of the decimal numerals accepted by Python `float()` in
the NagiosRange grammar: the value `num / 10 ^ exp`. -/
structure Dec where
  num : Int
  exp : Nat
deriving DecidableEq

/-- Comparison of two embedded decimals, by cross-multiplication with the
(positive) denominators; mirrors `operator.le` on Python floats
(nagios.py:223,228). -/
def Dec.le (a b : Dec) : Bool :=
  decide (a.num * (10 : Int) ^ b.exp ≤ b.num * (10 : Int) ^ a.exp)

/-- Rational value of an embedded decimal. -/
def Dec.toRat (a : Dec) : ℚ := (a.num : ℚ) / (10 : ℚ) ^ a.exp

/-- Python `float()` on a string drawn from the character class `[0-9.-]`:
an optional single leading minus sign, then digits with at most one decimal
point and at least one digit; anything else raises ValueError (`none`). -/
def pyFloat (l : List Char) : Option Dec :=
  let p :=
    match l with
    | '-' :: rest => ((-1 : Int), rest)
    | _ => ((1 : Int), l)
  match splitFirst '.' p.2 with
  | none =>
    if p.2 ≠ [] ∧ p.2.all Char.isDigit then
      some ⟨p.1 * (digitsToNat p.2 : Int), 0⟩
    else none
  | some (ip, fp) =>
    if (ip ++ fp) ≠ [] ∧ (ip ++ fp).all Char.isDigit then
      some ⟨p.1 * ((digitsToNat ip * 10 ^ fp.length + digitsToNat fp : Nat) : Int), fp.length⟩
    else none

/-- Result of `NagiosRange.parse` (nagios.py:172-209): the bounds of the
range and the negation flag.  `start = none` encodes `~` (minus infinity,
nagios.py:186), `stop = none` encodes an omitted end (plus infinity). -/
structure NRange where
  start : Option Dec
  stop : Option Dec
  neg : Bool
deriving DecidableEq

/-- Character class `[0-9.-]` of the start/end groups of the NagiosRange
regular expression (nagios.py:176). -/
def isRangeChar (c : Char) : Bool := c.isDigit || c == '.' || c == '-'

/-- Handling of the optional `(?P<end>[0-9.-]+)?` group: an empty remainder
means no end bound; a nonempty remainder must lie in the class and convert
via `float()`, else the whole parse raises (`none`). -/
def parseEnd (st : Option Dec) (neg : Bool) (eTxt : List Char) : Option NRange :=
  if eTxt = [] then some ⟨st, none, neg⟩
  else if eTxt.all isRangeChar then
    match pyFloat eTxt with
    | none => none
    | some ev => some ⟨st, some ev, neg⟩
  else none

/-- Embedding of `NagiosRange.parse` (nagios.py:172-209).  The regular
expression `^\s*(?P<neg>@)?((?P<start>(~|[0-9.-]+)):)?(?P<end>[0-9.-]+)?\s*$`
is decided structurally: optional whitespace is stripped, an optional `@`
sets the negation flag, a start group must be terminated by `:` and be `~`
or a nonempty `[0-9.-]` run, and a missing start group defaults to 0
(nagios.py:184).  Failure of the regular expression or of `float()` raises
ValueError in the source, embedded as `none`. -/
def NagiosRange.parse (s : String) : Option NRange :=
  let l := stripWS s.data
  let q :=
    match l with
    | '@' :: rest => (true, rest)
    | _ => (false, l)
  match splitFirst ':' q.2 with
  | some (sTxt, eTxt) =>
    if sTxt = ['~'] then parseEnd none q.1 eTxt
    else if sTxt ≠ [] ∧ sTxt.all isRangeChar then
      match pyFloat sTxt with
      | none => none
      | some sv => parseEnd (some sv) q.1 eTxt
    else none
  | none => parseEnd (some ⟨0, 0⟩) q.1 q.2

/-- Embedding of the closure `range_fn` built by `NagiosRange.parse`
(nagios.py:211-236): inside-the-range test with inclusive bounds, flipped
by the negation flag. -/
def NRange.rangeFn (r : NRange) (x : Dec) : Bool :=
  let startRes :=
    match r.start with
    | none => true
    | some s => Dec.le s x
  let endRes :=
    match r.stop with
    | none => true
    | some e => Dec.le x e
  let tmp := startRes && endRes
  if r.neg then !tmp else tmp

/-- Embedding of `NagiosRange.alert` (nagios.py:240-244). -/
def NRange.alert (r : NRange) (x : Dec) : Bool := ! r.rangeFn x

/-- Alert outcome for a textual range specification: `none` when parsing the
specification raises ValueError. -/
def NagiosRange.alertS (s : String) (x : Dec) : Option Bool :=
  (NagiosRange.parse s).map (fun r => r.alert x)

/-- Dictionary model for the shelves of `FileCache` (cache.py): a Python
dict is embedded as a function from keys to optional (timestamp, data)
entries; keys are strings, timestamps integers. -/
def Dict (V : Type) : Type := String → Option (Int × V)

/-- Empty dictionary. -/
def Dict.empty {V : Type} : Dict V := fun _ => none

/-- Assignment `d[key] = value` on a Python dict. -/
def Dict.insert {V : Type} (d : Dict V) (k : String) (v : Int × V) : Dict V :=
  fun j => if j = k then some v else d j

/-- State of a `FileCache` instance (cache.py:61-115): the baseline layer
`shelf` loaded at construction, the pending-write layer `new_shelf`, and the
retention policy flag consulted by `close`. -/
structure FCache (V : Type) where
  shelf : Dict V
  new_shelf : Dict V
  retain_old : Bool

/-- Embedding of `FileCache.__init__` (cache.py:61-115): `loaded` is the
mapping persisted in the backing file.  With `retain_old` the file is read
into `shelf`; without it the instance starts from an empty shelf and the
file is not read at all (cache.py:78-81). -/
def FileCache.openWith {V : Type} (loaded : Dict V) (retain_old : Bool) : FCache V :=
  if retain_old then ⟨loaded, Dict.empty, true⟩ else ⟨Dict.empty, Dict.empty, false⟩

/-- Embedding of `FileCache.load` (cache.py:142-149): pending writes first,
then the baseline.  The stored values are nonempty tuples, hence always
truthy, so Python's `or` is `Option.or`. -/
def FileCache.load {V : Type} (c : FCache V) (k : String) : Option (Int × V) :=
  (c.new_shelf k).or (c.shelf k)

/-- Embedding of `FileCache.update` (cache.py:117-140): returns the changed
flag together with the new cache state. -/
def FileCache.update {V : Type} (c : FCache V) (now : Int) (k : String) (data : V)
    (threshold : Int) : Bool × FCache V :=
  match FileCache.load c k with
  | some (ts, old) =>
    if now - ts > threshold then
      (true, { c with new_shelf := c.new_shelf.insert k (now, data) })
    else
      (false, { c with new_shelf := c.new_shelf.insert k (ts, old) })
  | none => (true, { c with new_shelf := c.new_shelf.insert k (now, data) })

/-- Embedding of `FileCache.retain` (cache.py:151-153). -/
def FileCache.retainOld {V : Type} (c : FCache V) : FCache V :=
  { c with retain_old := true }

/-- Embedding of `FileCache.discard` (cache.py:155-157). -/
def FileCache.discardOld {V : Type} (c : FCache V) : FCache V :=
  { c with retain_old := false }

/-- Mapping persisted by `FileCache.close` (cache.py:159-176): with
`retain_old` the pending writes are merged over the baseline
(`self.shelf.update(self.new_shelf)`), otherwise only the pending writes
are written. -/
def FileCache.closePersist {V : Type} (c : FCache V) : Dict V :=
  if c.retain_old then fun j => (c.new_shelf j).or (c.shelf j) else c.new_shelf

/-- One `update` call of a session: its wall-clock time, key, payload and
freshness threshold. -/
structure UpdateOp (V : Type) where
  now : Int
  key : String
  data : V
  threshold : Int

/-- A session's sequence of `update` calls, applied in order. -/
def runUpdates {V : Type} (c : FCache V) (ops : List (UpdateOp V)) : FCache V :=
  ops.foldl (fun c op => (FileCache.update c op.now op.key op.data op.threshold).2) c

/-- File-system operations relevant to persisting the cache.  `renameInto`
is the atomic write-and-rename replacement the specification asks for; it is
listed so the trace of `FileCache.close` can be shown not to contain it. -/
inductive WStep where
  | makeDirs
  | openTrunc
  | writeAll
  | closeFile
  | renameInto
deriving DecidableEq

/-- Operation trace of `FileCache.close` (cache.py:159-176): create the
missing parent directory if needed (cache.py:161-163), `open(filename,
'wb')` which truncates the existing file in place (cache.py:164), write the
gzipped serialized shelf (cache.py:172-174), close the handles
(cache.py:175-176).  No temporary file and no rename. -/
def FileCache.closeSteps : List WStep :=
  [WStep.makeDirs, WStep.openTrunc, WStep.writeAll, WStep.closeFile]

/-- Effect of one file operation on the backing file's contents (`none` =
file absent).  `makeDirs` touches only the directory; `openTrunc` truncates
the file to empty; `writeAll` stores the new payload; `renameInto`
atomically replaces the file with the fully written payload. -/
def applyStep (newContent : String) (file : Option String) : WStep → Option String
  | WStep.makeDirs => file
  | WStep.openTrunc => some ""
  | WStep.writeAll => some newContent
  | WStep.closeFile => file
  | WStep.renameInto => some newContent

/-- Contents of the backing file after executing the first `k` operations of
the close trace — a write that fails partway executes only a prefix. -/
def runCloseSteps (newContent : String) (k : Nat) (file : Option String) : Option String :=
  (FileCache.closeSteps.take k).foldl (applyStep newContent) file

/-- One entry of the `processed_dict` built by `NagiosResult._process_data`
(nagios.py:393-406) from the keyword arguments `name`, `name_warning`,
`name_critical`: metric name, numeric value, the textual rendering `str()`
of the value used when formatting perfdata, and the optional textual
warning/critical range specifications. -/
structure Metric where
  name : String
  value : Dec
  valueStr : String
  warning : Option String
  critical : Option String

/-- Python string comparison: lexicographic on code points. -/
def pyStrLt : List Char → List Char → Bool
  | [], [] => false
  | [], _ :: _ => true
  | _ :: _, [] => false
  | a :: as, b :: bs =>
    if a.toNat < b.toNat then true
    else if b.toNat < a.toNat then false
    else pyStrLt as bs

/-- Non-strict Python string comparison. -/
def pyStrLe (a b : List Char) : Bool := !(pyStrLt b a)

/-- Stable insertion into a sorted list. -/
def insertSorted {α : Type} (le : α → α → Bool) (x : α) : List α → List α
  | [] => [x]
  | y :: ys => if le x y then x :: y :: ys else y :: insertSorted le x ys

/-- Stable sort, modelling Python `sorted` as used on the metric items. -/
def sortByB {α : Type} (le : α → α → Bool) : List α → List α
  | [] => []
  | x :: xs => insertSorted le x (sortByB le xs)

/-- The `sorted(processed_dict.items())` traversal of nagios.py:416,518,524:
metrics ordered by name. -/
def sortMetrics (ms : List Metric) : List Metric :=
  sortByB (fun a b => pyStrLe a.name.data b.name.data) ms

/-- Python `', '.join(...)` (nagios.py:529). -/
def joinComma : List String → String
  | [] => ""
  | [x] => x
  | x :: xs => x ++ ", " ++ joinComma xs

/-- Python `' '.join(...)` (nagios.py:421). -/
def joinSpace : List String → String
  | [] => ""
  | [x] => x
  | x :: xs => x ++ " " ++ joinSpace xs

/-- Rendering of an absent warning/critical bound as the empty field
(`v.get('warning', '')`, nagios.py:419). -/
def optTxt : Option String → String
  | none => ""
  | some s => s

/-- Metric-name quoting of nagios.py:417-418: names containing a space are
wrapped in single quotes. -/
def perfName (n : String) : String :=
  if n.data.contains ' ' then String.singleton '\'' ++ n ++ String.singleton '\'' else n

/-- One perfdata item, nagios.py:419 (`unit` is never populated by
`_process_data`, so it renders as the empty string). -/
def perfOne (m : Metric) : String :=
  perfName m.name ++ "=" ++ m.valueStr ++ ";" ++ optTxt m.warning ++ ";" ++
    optTxt m.critical ++ ";"

/-- Embedding of `NagiosResult.__str__` (nagios.py:408-421): the message
alone when there is no perfdata, else the message, a ` | ` separator, and
the space-joined sorted perfdata items. -/
def nagiosResultStr (message : String) (ms : List Metric) : String :=
  if ms.isEmpty then message
  else message ++ " | " ++ joinSpace ((sortMetrics ms).map perfOne)

/-- Critical pass of `SimpleNagios._eval` (nagios.py:518-521): scan the
sorted metrics, alerting on each critical range; collect names of alerting
metrics in order.  A malformed range specification raises ValueError
(`none`). -/
def critScan : List Metric → Option (Bool × List String)
  | [] => some (false, [])
  | m :: rest =>
    match m.critical with
    | none => critScan rest
    | some c =>
      match NagiosRange.parse c with
      | none => none
      | some r =>
        match critScan rest with
        | none => none
        | some (b, names) =>
          let hit := r.alert m.value
          some (b || hit, if hit then m.name :: names else names)

/-- Warning pass of `SimpleNagios._eval` (nagios.py:523-527), identical in
shape to the critical pass but keyed on the warning ranges. -/
def warnScan : List Metric → Option (Bool × List String)
  | [] => some (false, [])
  | m :: rest =>
    match m.warning with
    | none => warnScan rest
    | some w =>
      match NagiosRange.parse w with
      | none => none
      | some r =>
        match warnScan rest with
        | none => none
        | some (b, names) =>
          let hit := r.alert m.value
          some (b || hit, if hit then m.name :: names else names)

/-- Embedding of `SimpleNagios._eval` (nagios.py:504-529): returns the
warning flag, the critical flag, and the comma-joined list of alerting
metric names.  The warning ranges are evaluated only when no critical range
alerted (nagios.py:523). -/
def SimpleNagios.evalModel (ms : List Metric) : Option (Bool × Bool × String) :=
  match critScan (sortMetrics ms) with
  | none => none
  | some (crit, cnames) =>
    if crit then some (false, true, joinComma cnames)
    else
      match warnScan (sortMetrics ms) with
      | none => none
      | some (warn, wnames) => some (warn, false, joinComma wnames)

/-- Embedding of `_real_exit` (nagios.py:72-94): the message is split on
`'|'`; the part before the first bar is the printable message, the part
between the first and second bar is re-prefixed with a bar as the metrics
suffix, and the message part alone is truncated to 8192 characters with an
ellipsis.  Returns the printed line and the process exit code. -/
def realExitModel (message : String) (code : Int × String) : String × Int :=
  let pm :=
    match splitFirst '|' message.data with
    | none => (message.data, ([] : List Char))
    | some (before, after) =>
      let second :=
        match splitFirst '|' after with
        | none => after
        | some (b2, _) => b2
      (before, '|' :: second)
  let msg := if pm.1.length > 8192 then pm.1.take (8192 - 3) ++ ['.', '.', '.'] else pm.1
  (code.2 ++ " " ++ String.mk msg ++ String.mk pm.2, code.1)

/-- Embedding of `SimpleNagios._eval_and_exit` (nagios.py:531-542) composed
with the default `real_exit` finaliser: on a critical (resp. warning) alert
the object's message is replaced by the joined alerting names
(`self.message = msg`, nagios.py:536,539) and the formatted result is
printed with the CRITICAL (resp. WARNING) exit; otherwise the original
message is kept and printed with the OK exit.  Returns the printed line and
exit code, `none` on a ValueError from range parsing. -/
def evalAndExitModel (message : String) (ms : List Metric) : Option (String × Int) :=
  match SimpleNagios.evalModel ms with
  | none => none
  | some (warn, crit, msg) =>
    if crit then some (realExitModel (nagiosResultStr msg ms) (2, "CRITICAL"))
    else if warn then some (realExitModel (nagiosResultStr msg ms) (1, "WARNING"))
    else some (realExitModel (nagiosResultStr message ms) (0, "OK"))

/-- Embedding of `NagiosReporter.report_and_exit` (nagios.py:278-296).
Environment inputs: whether constructing the `FileCache` raises
IOError/OSError (`openFails`, handled at nagios.py:283-287), the persisted
record `(timestamp, ((exit_code, exit_string), message))` under the
`nagios` key, and the rendering `ctime` of timestamps (`time.ctime`,
external).  Returns the printed line and the process exit code. -/
def reportAndExitModel (openFails : Bool) (record : Int × ((Int × String) × String))
    (header filename : String) (ctime : Int → String) (now threshold : Int) :
    String × Int :=
  if openFails then
    realExitModel (header ++ " nagios gzipped JSON file unavailable (" ++ filename ++ ")")
      (3, "UNKNOWN")
  else if threshold ≤ 0 ∨ now - record.1 < threshold then
    (record.2.1.2 ++ " " ++ record.2.2, record.2.1.1)
  else
    realExitModel (header ++ " gzipped JSON file too old (timestamp = " ++
      ctime record.1 ++ ")") (3, "UNKNOWN")

/-- Exceptions escaping `NagiosReporter.cache` (nagios.py:298-336):
`osErrorSave` is the re-raised OSError of nagios.py:312-316 when persisting
the record fails; `keyError` is the KeyError from `pwd.getpwnam`
(nagios.py:319) which the `except (OSError, FileNotFoundError)` clause does
not catch; `osErrorChown` is the OSError re-raised at nagios.py:331-334
after a chmod/chown failure. -/
inductive CacheExc where
  | osErrorSave
  | keyError
  | osErrorChown
deriving DecidableEq

/-- Log warnings emitted by `NagiosReporter.cache`. -/
inductive CacheWarn where
  | notRootChown
deriving DecidableEq

/-- Embedding of `NagiosReporter.cache` (nagios.py:298-336) over its fault
environment: whether persisting the record raises (nagios.py:307-316),
whether the nagios user exists (nagios.py:319), whether `os.chmod`
(nagios.py:320-323) or `os.chown` (nagios.py:327) raise OSError, and the
effective uid (nagios.py:326).  Returns the list of emitted warnings on
success, or the escaping exception. -/
def NagiosReporter.cacheRun (persistFails pwExists chmodFails chownFails : Bool)
    (euid : Int) : Except CacheExc (List CacheWarn) :=
  if persistFails then Except.error CacheExc.osErrorSave
  else if !pwExists then Except.error CacheExc.keyError
  else if chmodFails then Except.error CacheExc.osErrorChown
  else if euid = 0 then
    if chownFails then Except.error CacheExc.osErrorChown else Except.ok []
  else Except.ok [CacheWarn.notRootChown]

/-- Outcome of a `TimestampedPidLockfile.acquire` call. -/
inductive AcqResult where
  | ok
  | lockFailed
deriving DecidableEq

/-- Effective staleness timeout of `acquire`
(timestamp_pid_lockfile.py:78-79): `if not timeout: timeout =
self.threshold` replaces both an omitted argument and a falsy argument of 0
by the instance threshold. -/
def effTimeout (threshold : Int) (timeoutArg : Option Int) : Int :=
  match timeoutArg with
  | none => threshold
  | some t => if t = 0 then threshold else t

/-- Embedding of `TimestampedPidLockfile.acquire`
(timestamp_pid_lockfile.py:72-100) acting on the lock file state `file`
(`some (pid, timestamp)` when the file exists).  The first write attempt
fails with EEXIST exactly when the file exists; a stale holder is signalled
best-effort (`_find_and_kill`, no effect on the file), the stale file is
unlinked, and the write is retried once, any exception of the retry being
swallowed (timestamp_pid_lockfile.py:93-97); `retryFails` injects such a
retry failure.  Returns the result and the final lock file state; a
successful write stores the current pid and time
(timestamp_pid_lockfile.py:141-150). -/
def TimestampedPidLockfile.acquireModel (file : Option (Int × Int))
    (now myPid threshold : Int) (timeoutArg : Option Int) (retryFails : Bool) :
    AcqResult × Option (Int × Int) :=
  let timeout := effTimeout threshold timeoutArg
  match file with
  | none => (AcqResult.ok, some (myPid, now))
  | some (pid, ts) =>
    if now - ts > timeout then
      if retryFails then (AcqResult.lockFailed, none)
      else (AcqResult.ok, some (myPid, now))
    else (AcqResult.lockFailed, some (pid, ts))

lemma Dec.le_iff (a b : Dec) : Dec.le a b = true ↔ a.toRat ≤ b.toRat := by
  rw [Dec.le, Dec.toRat, Dec.toRat, decide_eq_true_iff,
    div_le_div_iff₀ (by positivity) (by positivity)]
  constructor
  · intro h
    exact_mod_cast h
  · intro h
    exact_mod_cast h

lemma Dec.toRat_neg_iff (x : Dec) : x.toRat < 0 ↔ x.num < 0 := by
  rw [Dec.toRat, div_neg_iff]
  constructor
  · rintro (⟨_, h⟩ | ⟨h, _⟩)
    · exact absurd h (not_lt.mpr (by positivity))
    · exact_mod_cast h
  · intro h
    exact Or.inr ⟨by exact_mod_cast h, by positivity⟩

lemma Dec.toRat_int (n : Int) : (Dec.mk n 0).toRat = (n : ℚ) := by
  simp [Dec.toRat]

lemma stripWS_eq_nil (l : List Char) (h : ∀ c ∈ l, isPyWS c = true) : stripWS l = [] := by
  have h1 : l.dropWhile isPyWS = [] := by
    rw [List.dropWhile_eq_nil_iff]
    exact h
  rw [stripWS, h1]
  simp

lemma parse_ws_only (s : String) (h : ∀ c ∈ s.data, isPyWS c = true) :
    NagiosRange.parse s = some ⟨some ⟨0, 0⟩, none, false⟩ := by
  have hs : stripWS s.data = [] := stripWS_eq_nil _ h
  simp [NagiosRange.parse, hs, splitFirst, parseEnd]

lemma rangeFn_both (s e x : Dec) :
    NRange.rangeFn ⟨some s, some e, false⟩ x = true ↔
      (s.toRat ≤ x.toRat ∧ x.toRat ≤ e.toRat) := by
  simp [NRange.rangeFn, Dec.le_iff]

lemma rangeFn_lower (s x : Dec) :
    NRange.rangeFn ⟨some s, none, false⟩ x = true ↔ s.toRat ≤ x.toRat := by
  simp [NRange.rangeFn, Dec.le_iff]

lemma rangeFn_upper (e x : Dec) :
    NRange.rangeFn ⟨none, some e, false⟩ x = true ↔ x.toRat ≤ e.toRat := by
  simp [NRange.rangeFn, Dec.le_iff]

lemma alert_both (s e x : Dec) :
    NRange.alert ⟨some s, some e, false⟩ x = true ↔
      ¬(s.toRat ≤ x.toRat ∧ x.toRat ≤ e.toRat) := by
  rw [NRange.alert, Bool.not_eq_true', ← Bool.not_eq_true, rangeFn_both]

lemma alert_both_neg (s e x : Dec) :
    NRange.alert ⟨some s, some e, true⟩ x = true ↔
      (s.toRat ≤ x.toRat ∧ x.toRat ≤ e.toRat) := by
  have hflip : NRange.alert ⟨some s, some e, true⟩ x =
      NRange.rangeFn ⟨some s, some e, false⟩ x := by
    simp [NRange.alert, NRange.rangeFn]
  rw [hflip, rangeFn_both]

lemma alert_lower (s x : Dec) :
    NRange.alert ⟨some s, none, false⟩ x = true ↔ ¬(s.toRat ≤ x.toRat) := by
  rw [NRange.alert, Bool.not_eq_true', ← Bool.not_eq_true, rangeFn_lower]

lemma alert_upper (e x : Dec) :
    NRange.alert ⟨none, some e, false⟩ x = true ↔ ¬(x.toRat ≤ e.toRat) := by
  rw [NRange.alert, Bool.not_eq_true', ← Bool.not_eq_true, rangeFn_upper]

/-- C5: NagiosRange membership is over the inclusive interval given by the
parsed bounds, with a missing start group defaulting to 0, `~` meaning minus
infinity and a missing end meaning plus infinity; `alert x` holds exactly
when `x` lies outside the interval, or inside it when the specification is
prefixed with `@`; in particular all boundary cases listed in the claim
evaluate as stated. -/
theorem c5_nagios_range_semantics :
    (NagiosRange.parse "10" = some ⟨some ⟨0, 0⟩, some ⟨10, 0⟩, false⟩ ∧
      NagiosRange.parse "10:" = some ⟨some ⟨10, 0⟩, none, false⟩ ∧
      NagiosRange.parse "~:10" = some ⟨none, some ⟨10, 0⟩, false⟩ ∧
      NagiosRange.parse "10:20" = some ⟨some ⟨10, 0⟩, some ⟨20, 0⟩, false⟩ ∧
      NagiosRange.parse "@10:20" = some ⟨some ⟨10, 0⟩, some ⟨20, 0⟩, true⟩) ∧
    (NagiosRange.alertS "10" ⟨10, 0⟩ = some false ∧
      NagiosRange.alertS "10" ⟨11, 0⟩ = some true ∧
      NagiosRange.alertS "10" ⟨-1, 0⟩ = some true ∧
      NagiosRange.alertS "10:" ⟨9, 0⟩ = some true ∧
      NagiosRange.alertS "10:" ⟨10, 0⟩ = some false ∧
      NagiosRange.alertS "@10:20" ⟨15, 0⟩ = some true ∧
      NagiosRange.alertS "@10:20" ⟨9, 0⟩ = some false) ∧
    (∀ x : Dec, NRange.alert ⟨some ⟨0, 0⟩, some ⟨10, 0⟩, false⟩ x = true ↔
      ¬((0 : ℚ) ≤ x.toRat ∧ x.toRat ≤ 10)) ∧
    (∀ x : Dec, NRange.alert ⟨some ⟨10, 0⟩, none, false⟩ x = true ↔
      ¬((10 : ℚ) ≤ x.toRat)) ∧
    (∀ x : Dec, NRange.alert ⟨none, some ⟨10, 0⟩, false⟩ x = true ↔
      ¬(x.toRat ≤ (10 : ℚ))) ∧
    (∀ x : Dec, NRange.alert ⟨some ⟨10, 0⟩, some ⟨20, 0⟩, false⟩ x = true ↔
      ¬((10 : ℚ) ≤ x.toRat ∧ x.toRat ≤ 20)) ∧
    (∀ x : Dec, NRange.alert ⟨some ⟨10, 0⟩, some ⟨20, 0⟩, true⟩ x = true ↔
      ((10 : ℚ) ≤ x.toRat ∧ x.toRat ≤ 20)) := by
  refine ⟨⟨by decide, by decide, by decide, by decide, by decide⟩,
    ⟨by decide, by decide, by decide, by decide, by decide, by decide, by decide⟩,
    fun x => ?_, fun x => ?_, fun x => ?_, fun x => ?_, fun x => ?_⟩
  · rw [alert_both, Dec.toRat_int, Dec.toRat_int]
    norm_num
  · rw [alert_lower, Dec.toRat_int]
    norm_num
  · rw [alert_upper, Dec.toRat_int]
    norm_num
  · rw [alert_both, Dec.toRat_int, Dec.toRat_int]
    norm_num
  · rw [alert_both_neg, Dec.toRat_int, Dec.toRat_int]
    norm_num

/-- C10: parsing the empty string, or any string of Python whitespace only,
succeeds with every optional part of the grammar defaulted (start 0, end
plus infinity, no negation), and the resulting alert fires exactly on
negative values. -/
theorem c10_empty_range_parse (s : String) (h : ∀ c ∈ s.data, isPyWS c = true) :
    NagiosRange.parse s = some ⟨some ⟨0, 0⟩, none, false⟩ ∧
    ∀ x : Dec, NagiosRange.alertS s x = some (decide (x.toRat < 0)) := by
  have hp := parse_ws_only s h
  refine ⟨hp, fun x => ?_⟩
  rw [NagiosRange.alertS, hp, Option.map_some']
  congr 1
  by_cases hx : x.toRat < 0
  · have hle : ¬ (Dec.le ⟨0, 0⟩ x = true) := by
      rw [Dec.le_iff, Dec.toRat_int]
      push_cast
      exact not_le.mpr hx
    simp [NRange.alert, NRange.rangeFn, Bool.not_eq_true] at hle ⊢
    simp [hle, hx]
  · have hle : Dec.le ⟨0, 0⟩ x = true := by
      rw [Dec.le_iff, Dec.toRat_int]
      push_cast
      exact not_lt.mp hx
    simp [NRange.alert, NRange.rangeFn, hle, hx]

/-- Closed instance of `c10_empty_range_parse`: the empty range specification
parses and alerts exactly on negative values. -/
theorem c10_empty_range_parse_witness :
    NagiosRange.parse "" = some ⟨some ⟨0, 0⟩, none, false⟩ ∧
      NagiosRange.alertS "" ⟨-1, 0⟩ = some (decide ((Dec.mk (-1) 0).toRat < 0)) := by
  have h := c10_empty_range_parse "" (by decide)
  exact ⟨h.1, h.2 ⟨-1, 0⟩⟩

lemma update_shelf {V : Type} (c : FCache V) (now : Int) (k : String) (data : V)
    (threshold : Int) :
    ((FileCache.update c now k data threshold).2).shelf = c.shelf ∧
    ((FileCache.update c now k data threshold).2).retain_old = c.retain_old := by
  rw [FileCache.update]
  cases h : FileCache.load c k with
  | none => exact ⟨rfl, rfl⟩
  | some p =>
    obtain ⟨ts, old⟩ := p
    by_cases hc : now - ts > threshold
    · simp [hc]
    · simp [hc]

lemma update_new_shelf_ne {V : Type} (c : FCache V) (now : Int) (k : String) (data : V)
    (threshold : Int) (j : String) (hj : k ≠ j) :
    ((FileCache.update c now k data threshold).2).new_shelf j = c.new_shelf j := by
  rw [FileCache.update]
  have hins : ∀ v : Int × V, Dict.insert c.new_shelf k v j = c.new_shelf j := by
    intro v
    rw [Dict.insert]
    exact if_neg (Ne.symm hj)
  cases h : FileCache.load c k with
  | none => simpa using hins (now, data)
  | some p =>
    obtain ⟨ts, old⟩ := p
    by_cases hc : now - ts > threshold
    · simpa [hc] using hins (now, data)
    · simpa [hc] using hins (ts, old)

lemma runUpdates_untouched {V : Type} (ops : List (UpdateOp V)) (c : FCache V) (j : String)
    (hj : ∀ op ∈ ops, op.key ≠ j) :
    (runUpdates c ops).shelf = c.shelf ∧
    (runUpdates c ops).retain_old = c.retain_old ∧
    (runUpdates c ops).new_shelf j = c.new_shelf j := by
  induction ops generalizing c with
  | nil => exact ⟨rfl, rfl, rfl⟩
  | cons op ops ih =>
    have hstep : runUpdates c (op :: ops) =
        runUpdates ((FileCache.update c op.now op.key op.data op.threshold).2) ops := rfl
    have hops : ∀ o ∈ ops, o.key ≠ j := fun o ho => hj o (List.mem_cons_of_mem _ ho)
    obtain ⟨h1, h2, h3⟩ := ih ((FileCache.update c op.now op.key op.data op.threshold).2) hops
    refine ⟨?_, ?_, ?_⟩
    · rw [hstep, h1, (update_shelf c op.now op.key op.data op.threshold).1]
    · rw [hstep, h2, (update_shelf c op.now op.key op.data op.threshold).2]
    · rw [hstep, h3,
        update_new_shelf_ne c op.now op.key op.data op.threshold j
          (hj op (List.mem_cons_self op ops))]

lemma Dict.insert_self {V : Type} (d : Dict V) (k : String) (v : Int × V) :
    Dict.insert d k v k = some v := if_pos rfl

/-- C2 counterexample: with threshold 0, an update arriving at exactly the
stored timestamp (age `now - ts = 0`, not `> 0`) keeps the old entry and
returns false, so a threshold of 0 does not refresh on every update. -/
theorem c2_zero_threshold_same_time_keeps :
    (FileCache.update
      (FileCache.openWith (fun j => if j = "nagios" then some (5, "old") else none) true)
      5 "nagios" "new" 0).1 = false ∧
    FileCache.load (FileCache.update
      (FileCache.openWith (fun j => if j = "nagios" then some (5, "old") else none) true)
      5 "nagios" "new" 0).2 "nagios" = some (5, "old") := by
  constructor
  · decide
  · decide

/-- C2 amended: `update` keeps the existing entry and returns false exactly
when `now - ts <= threshold`, replaces it with `(now, value)` and returns
true exactly when `now - ts > threshold`, and stores `(now, value)` with
result true when no entry exists; consequently a threshold of 0 refreshes
exactly when the entry is strictly older than `now` (`now - ts > 0`), not on
every update. -/
theorem c2_update_freshness {V : Type} (c : FCache V) (now : Int) (k : String) (v : V)
    (t : Int) :
    (∀ ts old, FileCache.load c k = some (ts, old) → now - ts ≤ t →
      (FileCache.update c now k v t).1 = false ∧
      FileCache.load (FileCache.update c now k v t).2 k = some (ts, old)) ∧
    (∀ ts old, FileCache.load c k = some (ts, old) → now - ts > t →
      (FileCache.update c now k v t).1 = true ∧
      FileCache.load (FileCache.update c now k v t).2 k = some (now, v)) ∧
    (FileCache.load c k = none →
      (FileCache.update c now k v t).1 = true ∧
      FileCache.load (FileCache.update c now k v t).2 k = some (now, v)) ∧
    (∀ ts old, FileCache.load c k = some (ts, old) → t = 0 →
      ((FileCache.update c now k v t).1 = true ↔ now - ts > 0)) := by
  refine ⟨?_, ?_, ?_, ?_⟩
  · intro ts old h hc
    rw [FileCache.update, h]
    dsimp only
    rw [if_neg (not_lt.mpr hc)]
    exact ⟨rfl, by simp [FileCache.load, Dict.insert_self]⟩
  · intro ts old h hc
    rw [FileCache.update, h]
    dsimp only
    rw [if_pos hc]
    exact ⟨rfl, by simp [FileCache.load, Dict.insert_self]⟩
  · intro h
    rw [FileCache.update, h]
    exact ⟨rfl, by simp [FileCache.load, Dict.insert_self]⟩
  · intro ts old h ht
    subst ht
    rw [FileCache.update, h]
    dsimp only
    by_cases hc : now - ts > 0
    · rw [if_pos hc]
      simpa using hc
    · rw [if_neg hc]
      simpa using hc

/-- Closed instance of `c2_update_freshness`: an entry of age 5 with
threshold 2 is replaced and the update reports a change. -/
theorem c2_update_freshness_witness :
    (FileCache.update
      (FileCache.openWith (fun j => if j = "nagios" then some (5, "old") else none) true)
      10 "nagios" "new" 2).1 = true ∧
    FileCache.load (FileCache.update
      (FileCache.openWith (fun j => if j = "nagios" then some (5, "old") else none) true)
      10 "nagios" "new" 2).2 "nagios" = some (10, "new") :=
  (c2_update_freshness
    (FileCache.openWith (fun j => if j = "nagios" then some (5, "old") else none) true)
    10 "nagios" "new" 2).2.1 5 "old" (by decide) (by decide)

/-- C7: a baseline key never passed to `update` during a session survives a
`close`-and-reopen round trip unchanged exactly when the cache is closed
with the retain-old policy, and is absent after closing with
`retain_old = false`. -/
theorem c7_retention_policy {V : Type} (persisted : Dict V) (k : String)
    (ops : List (UpdateOp V)) (ts0 : Int) (v0 : V)
    (hk : ∀ op ∈ ops, op.key ≠ k) (hp : persisted k = some (ts0, v0)) :
    FileCache.load (FileCache.openWith (FileCache.closePersist
      (FileCache.discardOld (runUpdates (FileCache.openWith persisted true) ops))) true)
      k = none ∧
    FileCache.load (FileCache.openWith (FileCache.closePersist
      (FileCache.retainOld (runUpdates (FileCache.openWith persisted true) ops))) true)
      k = some (ts0, v0) := by
  obtain ⟨hsh, -, hns⟩ :=
    runUpdates_untouched ops (FileCache.openWith persisted true) k hk
  have hsh' : (runUpdates (FileCache.openWith persisted true) ops).shelf = persisted := by
    rw [hsh]
    rfl
  have hns' : (runUpdates (FileCache.openWith persisted true) ops).new_shelf k = none := by
    rw [hns]
    rfl
  constructor
  · have h1 : FileCache.load (FileCache.openWith (FileCache.closePersist
        (FileCache.discardOld (runUpdates (FileCache.openWith persisted true) ops))) true) k =
        (runUpdates (FileCache.openWith persisted true) ops).new_shelf k := rfl
    rw [h1, hns']
  · have h1 : FileCache.load (FileCache.openWith (FileCache.closePersist
        (FileCache.retainOld (runUpdates (FileCache.openWith persisted true) ops))) true) k =
        ((runUpdates (FileCache.openWith persisted true) ops).new_shelf k).or
          ((runUpdates (FileCache.openWith persisted true) ops).shelf k) := rfl
    rw [h1, hns', hsh', hp]
    rfl

/-- Closed instance of `c7_retention_policy`: a baseline entry untouched by
the session's single update on another key is dropped by a discard-close and
kept unchanged by a retain-close. -/
theorem c7_retention_policy_witness :
    FileCache.load (FileCache.openWith (FileCache.closePersist
      (FileCache.discardOld (runUpdates
        (FileCache.openWith (fun j => if j = "base" then some (3, "keep") else none) true)
        [⟨10, "other", "x", 0⟩]))) true) "base" = none ∧
    FileCache.load (FileCache.openWith (FileCache.closePersist
      (FileCache.retainOld (runUpdates
        (FileCache.openWith (fun j => if j = "base" then some (3, "keep") else none) true)
        [⟨10, "other", "x", 0⟩]))) true) "base" = some (3, "keep") :=
  c7_retention_policy (fun j => if j = "base" then some (3, "keep") else none)
    "base" [⟨10, "other", "x", 0⟩] 3 "keep" (by decide) (by decide)

/-- C9: an `update` rejected for freshness still copies the old entry into
the pending-write layer (cache.py:136), so the key counts as touched and the
old pair survives a discard-close and reopen. -/
theorem c9_fresh_update_marks_touched {V : Type} (persisted : Dict V) (k : String)
    (now t ts0 : Int) (v v0 : V)
    (hp : persisted k = some (ts0, v0)) (hfresh : now - ts0 ≤ t) :
    (FileCache.update (FileCache.openWith persisted true) now k v t).1 = false ∧
    FileCache.load (FileCache.openWith (FileCache.closePersist (FileCache.discardOld
      (FileCache.update (FileCache.openWith persisted true) now k v t).2)) true)
      k = some (ts0, v0) := by
  have hload : FileCache.load (FileCache.openWith persisted true) k = some (ts0, v0) := by
    simp [FileCache.load, FileCache.openWith, Dict.empty, hp]
  constructor
  · rw [FileCache.update, hload]
    dsimp only
    rw [if_neg (not_lt.mpr hfresh)]
  · rw [FileCache.update, hload]
    dsimp only
    rw [if_neg (not_lt.mpr hfresh)]
    simp [FileCache.load, FileCache.openWith, FileCache.closePersist, FileCache.discardOld,
      Dict.empty, Dict.insert_self]

/-- Closed instance of `c9_fresh_update_marks_touched`: a too-fresh update
returns false, yet the old pair survives a discard-close and reopen. -/
theorem c9_fresh_update_marks_touched_witness :
    (FileCache.update
      (FileCache.openWith (fun j => if j = "base" then some (8, "old") else none) true)
      10 "base" "new" 60).1 = false ∧
    FileCache.load (FileCache.openWith (FileCache.closePersist (FileCache.discardOld
      (FileCache.update
        (FileCache.openWith (fun j => if j = "base" then some (8, "old") else none) true)
        10 "base" "new" 60).2)) true) "base" = some (8, "old") :=
  c9_fresh_update_marks_touched
    (fun j => if j = "base" then some (8, "old") else none)
    "base" 10 60 8 "new" "old" (by decide) (by decide)

/-- C6 counterexample: a close that fails right after opening the file for
writing leaves the file truncated — the previously persisted contents are
destroyed, and the close trace contains no rename step at all. -/
theorem c6_close_inplace_loses_data :
    runCloseSteps "newdata" 2 (some "olddata") = some "" ∧
    runCloseSteps "newdata" 2 (some "olddata") ≠ some "olddata" ∧
    WStep.renameInto ∉ FileCache.closeSteps := by
  refine ⟨by decide, by decide, by decide⟩

/-- C6 amended: `close` rewrites the cache file in place — the full trace
ends with the new contents, but the trace truncates the existing file
(`openTrunc`) before writing and never uses write-and-rename, so a failure
between the truncating open and the write loses the prior persisted data. -/
theorem c6_close_write_discipline (newContent old : String) (file : Option String) :
    runCloseSteps newContent FileCache.closeSteps.length file = some newContent ∧
    runCloseSteps newContent 2 (some old) = some "" ∧
    WStep.openTrunc ∈ FileCache.closeSteps ∧
    WStep.renameInto ∉ FileCache.closeSteps := by
  refine ⟨rfl, rfl, by decide, by decide⟩

/-- C1: evaluation at the repository's own test inputs
(src/test/nagios_simple.py:101-151).  With `message='hello'` and a metric
`value1=15` outside critical range `10`, the overall status is CRITICAL and
the name list is computed, but the printed message is
`CRITICAL value1 | value1=15;5;10;`: the original message `hello` is
discarded instead of following the name list, contradicting the claim and
the expected test output `CRITICAL value1, hello | value1=15;5;10;`.  The
second conjunct shows the same drop in the tie-break scenario (metric `a`
critical, metric `b` inside both ranges): only `a` is listed, warnings are
not consulted, and `hello` is again missing. -/
theorem c1_simple_nagios_eval_drops_message :
    evalAndExitModel "hello" [⟨"value1", ⟨15, 0⟩, "15", some "5", some "10"⟩] =
      some ("CRITICAL value1 | value1=15;5;10;", 2) ∧
    evalAndExitModel "hello"
      [⟨"b", ⟨3, 0⟩, "3", some "5", some "10"⟩,
       ⟨"a", ⟨15, 0⟩, "15", some "5", some "10"⟩] =
      some ("CRITICAL a | a=15;5;10; b=3;5;10;", 2) := by
  refine ⟨by decide, by decide⟩

lemma string_append_mk_nil (s : String) : s ++ String.mk [] = s := by
  cases s with
  | mk d =>
    show String.mk (d ++ []) = String.mk d
    rw [List.append_nil]

lemma realExitModel_code (message : String) (code : Int × String) :
    (realExitModel message code).2 = code.1 := rfl

lemma realExit_plain (message : String) (code : Int × String)
    (hbar : splitFirst '|' message.data = none)
    (hlen : message.data.length ≤ 8192) :
    realExitModel message code = (code.2 ++ " " ++ message, code.1) := by
  rw [realExitModel, hbar]
  dsimp only
  rw [if_neg (by omega)]
  rw [show String.mk message.data = message from rfl]
  rw [string_append_mk_nil]

/-- C4: `report_and_exit` prints the persisted status and terminates with
its exit code exactly when the staleness threshold is disabled
(`threshold <= 0`) or the record is fresh (`now - timestamp < threshold`);
a stale record yields exit code 3 with an UNKNOWN line citing the rendered
timestamp; a cache that cannot be opened yields exit code 3 immediately. -/
theorem c4_report_and_exit (openFails : Bool) (record : Int × ((Int × String) × String))
    (header filename : String) (ctime : Int → String) (now threshold : Int) :
    (openFails = false → (threshold ≤ 0 ∨ now - record.1 < threshold) →
      reportAndExitModel openFails record header filename ctime now threshold =
        (record.2.1.2 ++ " " ++ record.2.2, record.2.1.1)) ∧
    (openFails = false → ¬(threshold ≤ 0 ∨ now - record.1 < threshold) →
      (reportAndExitModel openFails record header filename ctime now threshold).2 = 3 ∧
      (splitFirst '|' (header ++ " gzipped JSON file too old (timestamp = " ++
          ctime record.1 ++ ")").data = none →
        (header ++ " gzipped JSON file too old (timestamp = " ++
          ctime record.1 ++ ")").data.length ≤ 8192 →
        (reportAndExitModel openFails record header filename ctime now threshold).1 =
          "UNKNOWN " ++ (header ++ " gzipped JSON file too old (timestamp = " ++
            ctime record.1 ++ ")"))) ∧
    (openFails = true →
      (reportAndExitModel openFails record header filename ctime now threshold).2 = 3) := by
  refine ⟨?_, ?_, ?_⟩
  · intro ho hc
    subst ho
    rw [reportAndExitModel]
    simp [hc]
  · intro ho hc
    subst ho
    have hun : reportAndExitModel false record header filename ctime now threshold =
        realExitModel (header ++ " gzipped JSON file too old (timestamp = " ++
          ctime record.1 ++ ")") (3, "UNKNOWN") := by
      rw [reportAndExitModel]
      simp [hc]
    refine ⟨by rw [hun, realExitModel_code], ?_⟩
    intro hbar hlen
    rw [hun, realExit_plain _ _ hbar hlen]
    rfl
  · intro ho
    subst ho
    rw [reportAndExitModel]
    simp [realExitModel_code]

/-- Closed instance of `c4_report_and_exit`: with the staleness check
disabled (threshold 0) the persisted CRITICAL record is replayed verbatim
with exit code 2. -/
theorem c4_report_and_exit_witness :
    reportAndExitModel false (100, ((2, "CRITICAL"), "all is bad")) "hdr" "f"
      (fun _ => "t") 150 0 = ("CRITICAL all is bad", 2) :=
  (c4_report_and_exit false (100, ((2, "CRITICAL"), "all is bad")) "hdr" "f"
    (fun _ => "t") 150 0).1 rfl (Or.inl (by decide))

/-- C8 counterexample: the record was persisted successfully
(`persistFails = false`), the nagios user exists, and the subsequent
`os.chmod` raises — `cache` re-raises a hard OSError (nagios.py:331-334)
instead of downgrading to a warning. -/
theorem c8_chmod_failure_raises :
    NagiosReporter.cacheRun false true true false 1000 =
      Except.error CacheExc.osErrorChown := rfl

/-- C8 amended: only the not-running-as-root case is downgraded — the chown
step is skipped with a logged warning and `cache` returns successfully; an
actual OSError from `os.chmod` (or from `os.chown` when running as root) is
re-raised as a hard OSError even though the record was already persisted. -/
theorem c8_chown_warning_only_when_not_root (persistFails pwExists chmodFails
    chownFails : Bool) (euid : Int) :
    (persistFails = false → pwExists = true → chmodFails = false → euid ≠ 0 →
      NagiosReporter.cacheRun persistFails pwExists chmodFails chownFails euid =
        Except.ok [CacheWarn.notRootChown]) ∧
    (persistFails = false → pwExists = true → chmodFails = true →
      NagiosReporter.cacheRun persistFails pwExists chmodFails chownFails euid =
        Except.error CacheExc.osErrorChown) ∧
    (persistFails = false → pwExists = true → chmodFails = false → euid = 0 →
      chownFails = true →
      NagiosReporter.cacheRun persistFails pwExists chmodFails chownFails euid =
        Except.error CacheExc.osErrorChown) := by
  refine ⟨?_, ?_, ?_⟩
  · intro h1 h2 h3 h4
    subst h1; subst h2; subst h3
    simp [NagiosReporter.cacheRun, h4]
  · intro h1 h2 h3
    subst h1; subst h2; subst h3
    simp [NagiosReporter.cacheRun]
  · intro h1 h2 h3 h4 h5
    subst h1; subst h2; subst h3; subst h4; subst h5
    simp [NagiosReporter.cacheRun]

/-- Closed instance of `c8_chown_warning_only_when_not_root`: a non-root run
with a working chmod succeeds with only the skipped-chown warning. -/
theorem c8_chown_warning_witness :
    NagiosReporter.cacheRun false true false false 1000 =
      Except.ok [CacheWarn.notRootChown] :=
  (c8_chown_warning_only_when_not_root false true false false 1000).1
    rfl rfl rfl (by decide)

/-- C3 counterexample.  First conjunct: with a stale lock `(pid 42, t 0)`
and a failing retry, `acquire` fails with LockFailed but the original lock
file has been deleted — its pid and timestamp are not untouched.  Second
conjunct: a staleness argument of 0 is replaced by the instance threshold
(60), so a lock of age 30 — stale with respect to the passed timeout 0 — is
not taken over. -/
theorem c3_stale_retry_failure_deletes_lockfile :
    (TimestampedPidLockfile.acquireModel (some (42, 0)) 1000 7 60 (some 60) true =
      (AcqResult.lockFailed, none) ∧
      (none : Option (Int × Int)) ≠ some (42, 0)) ∧
    TimestampedPidLockfile.acquireModel (some (42, 0)) 30 7 60 (some 0) false =
      (AcqResult.lockFailed, some (42, 0)) := by
  refine ⟨⟨by decide, by decide⟩, by decide⟩

/-- C3 amended: when the lock file exists and `now - timestamp` exceeds the
effective timeout (the argument when non-zero, else the instance
threshold), acquisition deletes the stale file after the best-effort signal
and succeeds on the retry, the new lock file recording the current process
id; if the existing lock is not stale, acquire fails with LockFailed and
the original pid and timestamp are untouched; if the retry itself fails,
acquire fails with LockFailed with the stale file already deleted. -/
theorem c3_acquire_staleness (pid ts now myPid threshold : Int)
    (timeoutArg : Option Int) (retryFails : Bool) :
    (now - ts > effTimeout threshold timeoutArg → retryFails = false →
      TimestampedPidLockfile.acquireModel (some (pid, ts)) now myPid threshold
        timeoutArg retryFails = (AcqResult.ok, some (myPid, now))) ∧
    (now - ts ≤ effTimeout threshold timeoutArg →
      TimestampedPidLockfile.acquireModel (some (pid, ts)) now myPid threshold
        timeoutArg retryFails = (AcqResult.lockFailed, some (pid, ts))) ∧
    (now - ts > effTimeout threshold timeoutArg → retryFails = true →
      TimestampedPidLockfile.acquireModel (some (pid, ts)) now myPid threshold
        timeoutArg retryFails = (AcqResult.lockFailed, none)) ∧
    TimestampedPidLockfile.acquireModel none now myPid threshold timeoutArg retryFails =
      (AcqResult.ok, some (myPid, now)) := by
  refine ⟨?_, ?_, ?_, rfl⟩
  · intro hst hr
    subst hr
    rw [TimestampedPidLockfile.acquireModel]
    simp [hst]
  · intro hst
    rw [TimestampedPidLockfile.acquireModel]
    simp [not_lt.mpr hst]
  · intro hst hr
    subst hr
    rw [TimestampedPidLockfile.acquireModel]
    simp [hst]

/-- Closed instance of `c3_acquire_staleness`: a lock of age 1000 with
threshold 60 is taken over and the new lock file records the acquiring
process id 7. -/
theorem c3_acquire_staleness_witness :
    TimestampedPidLockfile.acquireModel (some (42, 0)) 1000 7 60 none false =
      (AcqResult.ok, some (7, 1000)) :=
  (c3_acquire_staleness 42 0 1000 7 60 none false).1 (by decide) rfl
